import Mathlib

/-!
Verification of the Lead-Automation backend (lead-automation-system1) against its
natural-language specification.  The Python services under `backend/services/`
(`email_service.py`, `payment_service.py`, `tracking_service.py`,
`sheets_service.py`) are shallowly embedded below: lead dictionaries become a
record of optional string fields, `datetime` values become natural numbers
counted in days, the in-memory `active_campaigns` dict becomes an association
list keyed by the optional lead id, and the SMTP / Sheets / Stripe boundaries
become an oracle (`Env.sendOk`) and explicit effect lists (dispatched messages,
lead-store updates).
-/

namespace LeadAutomation

/-- Lead record: the lead dictionaries flowing through the services.  Every
field is optional, mirroring `lead.get(key, default)` accesses on Python
dicts whose values are strings. -/
structure Lead where
  id : Option String
  first_name : Option String
  last_name : Option String
  email : Option String
  phone : Option String
  linkedin_url : Option String
  title : Option String
  company : Option String
  company_website : Option String
  industry : Option String
  company_size : Option String
  country : Option String
  estimated_revenue : Option String
  status : Option String
  source : Option String
  notes : Option String
  payment_link : Option String
deriving DecidableEq

/-- An all-`none` lead, convenient base for concrete examples. -/
def Lead.blank : Lead :=
  ⟨none, none, none, none, none, none, none, none, none,
   none, none, none, none, none, none, none, none⟩

/-- Arguments of one `EmailService._send_email(to_email, subject, html_content,
country)` call: a dispatch attempt at the SMTP boundary. -/
structure Msg where
  to_email : Option String
  subject : String
  html_content : String
  country : Option String
deriving DecidableEq

/-- Arguments of one `SheetsService.update_lead(lead_id, status, notes)` call. -/
structure LeadUpdate where
  lead_id : Option String
  status : String
  note : String
deriving DecidableEq

/-- One entry of `EmailService.active_campaigns` (created in `start_campaign`,
lines 374-381): the per-lead follow-up record. -/
structure Campaign where
  lead : Lead
  sequence : String
  last_contact : Nat
  follow_up_count : Nat
  max_follow_ups : Nat
  next_follow_up : Nat
deriving DecidableEq

/-- Environment of the services: the outcome of each SMTP dispatch attempt
(`_send_email` returns a bool) and the configuration read from the process
environment in `EmailService.__init__`. -/
structure Env where
  sendOk : Msg → Bool
  calendly_link : String
  gmail_username : Option String
  gmail_password : Option String
  outlook_email : Option String
  outlook_password : Option String

/-- Python `str.replace` on character lists: leftmost-first, non-overlapping
replacement of every occurrence of `pat` by `rep`. -/
def pyReplaceAux (pat rep : List Char) : List Char → List Char
  | [] => []
  | c :: cs =>
    if pat.isPrefixOf (c :: cs) then
      rep ++ pyReplaceAux pat rep (cs.drop (pat.length - 1))
    else
      c :: pyReplaceAux pat rep cs
termination_by l => l.length
decreasing_by
  · simp only [List.length_cons, List.length_drop]
    omega
  · simp only [List.length_cons]
    omega

/-- Python `s.replace(pat, rep)` for strings. -/
def pyReplace (s pat rep : String) : String :=
  ⟨pyReplaceAux pat.data rep.data s.data⟩

/-- Python `sub in s` substring containment test. -/
def strContains (s sub : String) : Bool :=
  decide (sub.data <:+: s.data)

/-- ASCII lower-casing of one character, as Python `str.lower` acts on the
ASCII range (every string the services lower-case is ASCII). -/
def char_lower (c : Char) : Char :=
  if 65 ≤ c.toNat ∧ c.toNat ≤ 90 then Char.ofNat (c.toNat + 32) else c

/-- Python `s.lower()` for ASCII strings. -/
def str_lower (s : String) : String :=
  ⟨s.data.map char_lower⟩

/-- Python truthiness test `not email` for an optional string field: true when
the field is absent or the empty string. -/
def email_falsy : Option String → Bool
  | none => true
  | some s => s == ""

/-- Subject and body of one email template. -/
structure EmailTemplate where
  subject : String
  body : String
deriving DecidableEq

/-- Stage `initial` of the template table in `_get_email_templates` (subjects and bodies verbatim from the source; braces and apostrophes are escape-coded). -/
def initial_templates : List (String × EmailTemplate) :=
  [("us",
   ⟨"Quick question about \x7b\x7bcompany\x7d\x7d",
    "\n                    <p>Hi \x7b\x7bfirst_name\x7d\x7d,</p>\n                    <p>I noticed you\x27re the owner of \x7b\x7bcompany\x7d\x7d and I wanted to reach out.</p>\n                    <p>We\x27ve been helping \x7b\x7bbusiness_type\x7d\x7d like yours streamline their operations and increase revenue.</p>\n                    <p>Would you be interested in a quick 15-minute chat to see if we could help you too?</p>\n                    <p>Best regards,<br>Your Name</p>\n                    "⟩),
  ("india",
   ⟨"Regarding your business: \x7b\x7bcompany\x7d\x7d",
    "\n                    <p>Hello \x7b\x7bfirst_name\x7d\x7d,</p>\n                    <p>I came across \x7b\x7bcompany\x7d\x7d while researching leading \x7b\x7bbusiness_type\x7d\x7d in \x7b\x7bcountry\x7d\x7d.</p>\n                    <p>Our company specializes in helping businesses like yours increase efficiency and growth.</p>\n                    <p>Would you be open to a brief conversation about how we might help your business?</p>\n                    <p>Regards,<br>Your Name</p>\n                    "⟩)]

/-- Stage `follow_up_1` of the template table in `_get_email_templates` (subjects and bodies verbatim from the source; braces and apostrophes are escape-coded). -/
def follow_up_1_templates : List (String × EmailTemplate) :=
  [("us",
   ⟨"Following up: \x7b\x7bcompany\x7d\x7d",
    "\n                    <p>Hi \x7b\x7bfirst_name\x7d\x7d,</p>\n                    <p>I wanted to follow up on my previous email about how we could help \x7b\x7bcompany\x7d\x7d.</p>\n                    <p>Many \x7b\x7bbusiness_type\x7d\x7d owners we work with have seen significant improvements in just a few weeks.</p>\n                    <p>Would you be available for a quick call this week?</p>\n                    <p>Best regards,<br>Your Name</p>\n                    "⟩),
  ("india",
   ⟨"Quick follow-up: \x7b\x7bcompany\x7d\x7d",
    "\n                    <p>Hello \x7b\x7bfirst_name\x7d\x7d,</p>\n                    <p>I\x27m following up on my previous message regarding \x7b\x7bcompany\x7d\x7d.</p>\n                    <p>We\x27ve helped several \x7b\x7bbusiness_type\x7d\x7d in India achieve remarkable results recently.</p>\n                    <p>Would you like to schedule a short call to discuss how we could help you too?</p>\n                    <p>Regards,<br>Your Name</p>\n                    "⟩)]

/-- Stage `follow_up_2` of the template table in `_get_email_templates` (subjects and bodies verbatim from the source; braces and apostrophes are escape-coded). -/
def follow_up_2_templates : List (String × EmailTemplate) :=
  [("us",
   ⟨"One more thing about \x7b\x7bcompany\x7d\x7d",
    "\n                    <p>Hi \x7b\x7bfirst_name\x7d\x7d,</p>\n                    <p>I thought I\x27d share that we recently helped a \x7b\x7bbusiness_type\x7d\x7d similar to \x7b\x7bcompany\x7d\x7d increase their revenue by 30%.</p>\n                    <p>I\x27d love to show you how we did it in a quick call.</p>\n                    <p>Let me know if you\x27re interested!</p>\n                    <p>Best regards,<br>Your Name</p>\n                    "⟩),
  ("india",
   ⟨"Case study for \x7b\x7bcompany\x7d\x7d",
    "\n                    <p>Hello \x7b\x7bfirst_name\x7d\x7d,</p>\n                    <p>I wanted to share a case study about how we helped a \x7b\x7bbusiness_type\x7d\x7d in India similar to \x7b\x7bcompany\x7d\x7d.</p>\n                    <p>They were facing challenges with growth, and we helped them implement solutions that increased their revenue.</p>\n                    <p>Would you like to see how we could apply similar strategies to your business?</p>\n                    <p>Regards,<br>Your Name</p>\n                    "⟩)]

/-- Stage `follow_up_3` of the template table in `_get_email_templates` (subjects and bodies verbatim from the source; braces and apostrophes are escape-coded). -/
def follow_up_3_templates : List (String × EmailTemplate) :=
  [("us",
   ⟨"Final thoughts for \x7b\x7bcompany\x7d\x7d",
    "\n                    <p>Hi \x7b\x7bfirst_name\x7d\x7d,</p>\n                    <p>I\x27ve reached out a few times about how we could help \x7b\x7bcompany\x7d\x7d grow as a \x7b\x7bbusiness_type\x7d\x7d.</p>\n                    <p>I understand you might be busy, so this will be my last email for now.</p>\n                    <p>If you\x27d like to explore how we could work together in the future, please feel free to reach out.</p>\n                    <p>Best regards,<br>Your Name</p>\n                    "⟩),
  ("india",
   ⟨"Last message regarding \x7b\x7bcompany\x7d\x7d",
    "\n                    <p>Hello \x7b\x7bfirst_name\x7d\x7d,</p>\n                    <p>I\x27ve sent a few messages about how we could support \x7b\x7bcompany\x7d\x7d as a growing \x7b\x7bbusiness_type\x7d\x7d in India.</p>\n                    <p>This will be my last email, but please know my offer to help still stands.</p>\n                    <p>Whenever you\x27re ready to discuss, I\x27m here to help.</p>\n                    <p>Regards,<br>Your Name</p>\n                    "⟩)]

/-- Stage `call_invite` of the template table in `_get_email_templates` (subjects and bodies verbatim from the source; braces and apostrophes are escape-coded). -/
def call_invite_templates : List (String × EmailTemplate) :=
  [("us",
   ⟨"Call details for our discussion",
    "\n                    <p>Hi \x7b\x7bfirst_name\x7d\x7d,</p>\n                    <p>Thank you for your interest in discussing how we can help \x7b\x7bcompany\x7d\x7d.</p>\n                    <p>You can book a time on my calendar here: <a href=\"\x7b\x7bcalendly_link\x7d\x7d\">Schedule a Call</a></p>\n                    <p>I look forward to our conversation!</p>\n                    <p>Best regards,<br>Your Name</p>\n                    "⟩),
  ("india",
   ⟨"Schedule our call",
    "\n                    <p>Hello \x7b\x7bfirst_name\x7d\x7d,</p>\n                    <p>Thanks for your interest in exploring how we can help \x7b\x7bcompany\x7d\x7d grow.</p>\n                    <p>Please use this link to book a time that works for you: <a href=\"\x7b\x7bcalendly_link\x7d\x7d\">Book a Call</a></p>\n                    <p>I\x27m looking forward to our discussion!</p>\n                    <p>Regards,<br>Your Name</p>\n                    "⟩)]

/-- Stage `pricing_info` of the template table in `_get_email_templates` (subjects and bodies verbatim from the source; braces and apostrophes are escape-coded). -/
def pricing_info_templates : List (String × EmailTemplate) :=
  [("us",
   ⟨"Investment details for \x7b\x7bcompany\x7d\x7d",
    "\n                    <p>Hi \x7b\x7bfirst_name\x7d\x7d,</p>\n                    <p>Thank you for your interest in our services for \x7b\x7bcompany\x7d\x7d.</p>\n                    <p>Based on our discussion, the investment for our solution would be $\x7b\x7bprice\x7d\x7d.</p>\n                    <p>You can make the payment securely through this link: <a href=\"\x7b\x7bpayment_link\x7d\x7d\">Make Payment</a></p>\n                    <p>Once the payment is confirmed, we\x27ll begin the onboarding process right away.</p>\n                    <p>Best regards,<br>Your Name</p>\n                    "⟩),
  ("india",
   ⟨"Pricing information for \x7b\x7bcompany\x7d\x7d",
    "\n                    <p>Hello \x7b\x7bfirst_name\x7d\x7d,</p>\n                    <p>Thank you for considering our services for \x7b\x7bcompany\x7d\x7d.</p>\n                    <p>The investment for our solution would be ₹\x7b\x7bprice\x7d\x7d.</p>\n                    <p>You can complete the payment through this secure link: <a href=\"\x7b\x7bpayment_link\x7d\x7d\">Make Payment</a></p>\n                    <p>After payment confirmation, we\x27ll start the onboarding process immediately.</p>\n                    <p>Regards,<br>Your Name</p>\n                    "⟩)]
/-- The full template table of `_get_email_templates` (lines 140-275), keyed by
sequence type. -/
def templates_table : List (String × List (String × EmailTemplate)) :=
  [("initial", initial_templates),
   ("follow_up_1", follow_up_1_templates),
   ("follow_up_2", follow_up_2_templates),
   ("follow_up_3", follow_up_3_templates),
   ("call_invite", call_invite_templates),
   ("pricing_info", pricing_info_templates)]

/-- `_get_email_templates(sequence_type)`: the final
`templates.get(sequence_type, templates["initial"])` of line 277 — an unknown
sequence type yields the `initial` stage's templates. -/
def get_email_templates (sequence_type : String) : List (String × EmailTemplate) :=
  (templates_table.lookup sequence_type).getD initial_templates

/-- The call-site template-set lookup `templates.get(country_code,
templates["us"])` (lines 356, 435, 502, 565): a country code missing from the
stage's dict falls back to that stage's `us` entry.  (The trailing default
covers the `KeyError` Python would raise if a stage lacked a `us` entry; every
stage in `templates_table` has one, so it is unreachable.) -/
def pick_template (ts : List (String × EmailTemplate)) (code : String) : EmailTemplate :=
  ((ts.lookup code).orElse (fun _ => ts.lookup "us")).getD ⟨"", ""⟩

/-- The country-to-template-set branch `country_code = "us" if country == "US"
else "india"` duplicated at lines 352, 431, 498, 561 of `email_service.py`. -/
def country_code_of (country : Option String) : String :=
  if country == some "US" then "us" else "india"

/-- Result of `_get_smtp_connection` (lines 60-85). -/
structure SmtpConfig where
  server : String
  port : Nat
  username : Option String
  password : Option String
deriving DecidableEq

/-- `_get_smtp_connection(country)`: Outlook for `country == "US"`, Gmail for
every other country value. -/
def get_smtp_connection (env : Env) (country : Option String) : SmtpConfig :=
  if country == some "US" then
    ⟨"smtp-mail.outlook.com", 587, env.outlook_email, env.outlook_password⟩
  else
    ⟨"smtp.gmail.com", 587, env.gmail_username, env.gmail_password⟩

/-- The two payment processors of `payment_service.py`. -/
inductive Processor where
  | stripe
  | razorpay
deriving DecidableEq

/-- `PaymentService.create_payment_link` (lines 45-60): branch on
`country == "US"` choosing `_create_stripe_payment_link`, else
`_create_razorpay_payment_link`. -/
def create_payment_link (country : Option String) : Processor :=
  if country == some "US" then Processor.stripe else Processor.razorpay

/-- The currency each processor branch mints its link in:
`stripe.Price.create(..., currency="usd")` at line 91 and
`payment_data["currency"] = "INR"` at line 160. -/
def processor_currency : Processor → String
  | Processor.stripe => "usd"
  | Processor.razorpay => "INR"

/-- The business-type heuristic at the top of `_personalize_template`
(lines 290-300). -/
def business_type_of (lead : Lead) : String :=
  let bt := lead.industry.getD "business"
  if bt == "" || str_lower bt == "n/a" then
    if strContains (str_lower (lead.company.getD "")) "agency" then "digital agency"
    else if strContains (str_lower (lead.title.getD "")) "coach" then "coaching business"
    else if strContains (str_lower (lead.title.getD "")) "consult" then "consulting business"
    else "business"
  else bt

/-- The `replacements` dict of `_personalize_template` (lines 303-311), in its
Python insertion order. -/
def replacements (env : Env) (lead : Lead) : List (String × String) :=
  [("\x7b\x7bfirst_name\x7d\x7d", lead.first_name.getD "there"),
   ("\x7b\x7blast_name\x7d\x7d", lead.last_name.getD ""),
   ("\x7b\x7bcompany\x7d\x7d", lead.company.getD "your business"),
   ("\x7b\x7bbusiness_type\x7d\x7d", business_type_of lead),
   ("\x7b\x7bcountry\x7d\x7d", if lead.country == some "US" then "the United States" else "India"),
   ("\x7b\x7bcalendly_link\x7d\x7d", env.calendly_link),
   ("\x7b\x7bpayment_link\x7d\x7d", lead.payment_link.getD "#")]

/-- `_personalize_template(template, lead)` (lines 279-318): sequential literal
`str.replace` of each placeholder. -/
def personalize_template (env : Env) (template : String) (lead : Lead) : String :=
  (replacements env lead).foldl (fun acc kv => pyReplace acc kv.1 kv.2) template

/-- The message rendered and addressed for a given stage of a given lead
(the template-selection + personalization block shared by `start_campaign`
lines 351-360 and `_process_follow_ups` lines 430-439). -/
def stage_msg (env : Env) (stage : String) (lead : Lead) : Msg :=
  let td := pick_template (get_email_templates stage) (country_code_of lead.country)
  ⟨lead.email, personalize_template env td.subject lead,
   personalize_template env td.body lead, lead.country⟩

/-- The follow-up message a due campaign dispatches: stage
`follow_up_{n+1}` where `n` is the count before the tick increments it
(`_process_follow_ups` lines 423-439). -/
def follow_up_msg (env : Env) (c : Campaign) : Msg :=
  stage_msg env ("follow_up_" ++ toString (c.follow_up_count + 1)) c.lead

/-- The `call_invite` reply message of `handle_reply` (lines 495-509),
addressed to the webhook's `from` address. -/
def call_invite_msg (env : Env) (lead : Lead) (from_email : String) : Msg :=
  let td := pick_template (get_email_templates "call_invite") (country_code_of lead.country)
  ⟨some from_email, personalize_template env td.subject lead,
   personalize_template env td.body lead, lead.country⟩

/-- Python dict assignment `active_campaigns[lead_id] = c`: replace the entry
with that key if present, else append. -/
def assoc_set (k : Option String) (v : Campaign) :
    List (Option String × Campaign) → List (Option String × Campaign)
  | [] => [(k, v)]
  | e :: rest => if e.1 == k then (k, v) :: rest else e :: assoc_set k v rest

/-- Effects of one service entry point: the surviving `active_campaigns`
entries, the `_send_email` attempts made, and the `update_lead` calls made. -/
structure TickResult where
  campaigns : List (Option String × Campaign)
  dispatches : List Msg
  updates : List LeadUpdate
deriving DecidableEq

/-- One iteration of the `_process_follow_ups` loop (lines 404-459) on a single
`active_campaigns` entry: skip when not yet due, close (drop the entry and
record a "No Response" update) when the follow-up count has reached the
maximum, otherwise increment the count, render stage `follow_up_{count}` and
attempt the dispatch — on success also refresh `last_contact`/`next_follow_up`
and record a "Follow-up" update, on failure keep the (already incremented)
record unchanged otherwise. -/
def step_campaign (env : Env) (now : Nat) (e : Option String × Campaign) :
    Option (Option String × Campaign) × List Msg × List LeadUpdate :=
  if now < e.2.next_follow_up then
    (some e, [], [])
  else if e.2.max_follow_ups ≤ e.2.follow_up_count then
    (none, [],
     [⟨e.1, "No Response",
       "Completed " ++ toString e.2.follow_up_count ++ " follow-ups with no response"⟩])
  else if env.sendOk (follow_up_msg env e.2) then
    (some (e.1, { e.2 with follow_up_count := e.2.follow_up_count + 1,
                           last_contact := now, next_follow_up := now + 3 }),
     [follow_up_msg env e.2],
     [⟨e.1, "Follow-up",
       "Follow-up email #" ++ toString (e.2.follow_up_count + 1) ++ " sent"⟩])
  else
    (some (e.1, { e.2 with follow_up_count := e.2.follow_up_count + 1 }),
     [follow_up_msg env e.2], [])

/-- `_process_follow_ups` (lines 399-459): iterate `step_campaign` over the
snapshot of `active_campaigns`, concatenating effects in iteration order. -/
def process_follow_ups (env : Env) (now : Nat) :
    List (Option String × Campaign) → TickResult
  | [] => ⟨[], [], []⟩
  | e :: rest =>
    let s := step_campaign env now e
    let r := process_follow_ups env now rest
    ⟨s.1.toList ++ r.campaigns, s.2.1 ++ r.dispatches, s.2.2 ++ r.updates⟩

/-- A sequence of daily follow-up ticks at the given times, each acting on the
campaigns the previous tick left active. -/
def run_ticks (env : Env) (nows : List Nat)
    (cs : List (Option String × Campaign)) : List (Option String × Campaign) :=
  nows.foldl (fun acc now => (process_follow_ups env now acc).campaigns) cs

/-- Result of `start_campaign` (lines 320-397): success/failure counters plus
the effects.  The per-lead `results["leads"]` entries are summarized by the
counters. -/
structure StartResult where
  success : Nat
  failed : Nat
  campaigns : List (Option String × Campaign)
  dispatches : List Msg
  updates : List LeadUpdate

/-- `start_campaign(leads)` (lines 320-397): for each lead, skip when the email
field is falsy, otherwise render the `initial` stage and attempt dispatch; on
success record an "Initial Contact" update and insert an `active_campaigns`
record with `follow_up_count = 0`, `max_follow_ups = 3` and
`next_follow_up = now + 3` days. -/
def start_campaign (env : Env) (now : Nat) :
    List Lead → List (Option String × Campaign) → StartResult
  | [], cs => ⟨0, 0, cs, [], []⟩
  | lead :: rest, cs =>
    if email_falsy lead.email then
      let r := start_campaign env now rest cs
      ⟨r.success, r.failed + 1, r.campaigns, r.dispatches, r.updates⟩
    else
      let msg := stage_msg env "initial" lead
      if env.sendOk msg then
        let c : Campaign := ⟨lead, "initial", now, 0, 3, now + 3⟩
        let r := start_campaign env now rest (assoc_set lead.id c cs)
        ⟨r.success + 1, r.failed, r.campaigns, msg :: r.dispatches,
         ⟨lead.id, "Initial Contact", "Initial email sent"⟩ :: r.updates⟩
      else
        let r := start_campaign env now rest cs
        ⟨r.success, r.failed + 1, r.campaigns, msg :: r.dispatches, r.updates⟩

/-- The email-reply webhook payload handed to `handle_reply`; each field is
read with `email_data.get(key, "")`. -/
structure ReplyData where
  from_email : Option String
  subject : Option String
  body : Option String

/-- The fixed call-intent keyword set of `handle_reply` line 492. -/
def call_keywords : List String :=
  ["call", "meeting", "schedule", "calendly", "available", "time"]

/-- Result of `handle_reply`: the returned bool plus the effects. -/
structure ReplyResult where
  ok : Bool
  campaigns : List (Option String × Campaign)
  dispatches : List Msg
  updates : List LeadUpdate

/-- `handle_reply(email_data)` (lines 461-529): resolve the sender to a lead by
exact email match (first match wins; unknown sender returns `False` and
changes nothing), drop the lead's `active_campaigns` entry if present, then
branch on the case-insensitive call-keyword test of the body: matched sends
the `call_invite` template and records a "Call Requested" update, unmatched
records a "Replied" update and sends nothing. -/
def handle_reply (env : Env) (d : ReplyData) (leads : List Lead)
    (cs : List (Option String × Campaign)) : ReplyResult :=
  let from_email := d.from_email.getD ""
  let subject := d.subject.getD ""
  let body := d.body.getD ""
  match leads.filter (fun l => l.email == some from_email) with
  | [] => ⟨false, cs, [], []⟩
  | lead :: _ =>
    let cs1 := cs.filter (fun e => !(e.1 == lead.id))
    let wants_call := call_keywords.any (fun k => strContains (str_lower body) k)
    if wants_call then
      ⟨true, cs1, [call_invite_msg env lead from_email],
       [⟨lead.id, "Call Requested", "Lead requested a call, sent Calendly link"⟩]⟩
    else
      ⟨true, cs1, [], [⟨lead.id, "Replied", "Lead replied: " ++ subject⟩]⟩

/-- Python `f"{cents/100:.2f}"` for a whole number of cents: dollars with two
decimal places, as `_handle_stripe_webhook` formats `amount_total / 100`. -/
def format_cents (cents : Nat) : String :=
  toString (cents / 100) ++ "." ++
    (if cents % 100 < 10 then "0" else "") ++ toString (cents % 100)

/-- The Stripe webhook payload fields `_handle_stripe_webhook` reads:
`webhook_data["type"]`, `data.object.metadata.lead_id` (default `""`) and
`data.object.amount_total` (default 0, in cents). -/
structure StripeWebhook where
  type_ : String
  lead_id : String
  amount_total : Nat

/-- Result of `_handle_stripe_webhook`: the returned bool plus the effects.
`campaigns` carries `EmailService.active_campaigns` through the call — no
statement in the handler (lines 227-272) touches it. -/
structure WebhookResult where
  ok : Bool
  campaigns : List (Option String × Campaign)
  dispatches : List Msg
  updates : List LeadUpdate

/-- `_send_onboarding_email(lead)` (lines 322-389): skip when the email field
is falsy; otherwise pick the country-specific onboarding template, personalize
the body, attempt dispatch and on success record an "Onboarding" update. -/
def send_onboarding_email (env : Env) (lead : Lead) :
    Bool × List Msg × List LeadUpdate :=
  if email_falsy lead.email then (false, [], [])
  else
    let subject :=
      if lead.country.getD "US" == "US" then
        "Welcome onboard, " ++ (lead.first_name.getD "None") ++
          "! Next steps for " ++ (lead.company.getD "None")
      else
        "Welcome to our services, " ++ (lead.first_name.getD "None") ++
          "! Next steps for " ++ (lead.company.getD "None")
    let template :=
      if lead.country.getD "US" == "US" then
        "\n                <p>Hi \x7b\x7bfirst_name\x7d\x7d,</p>\n                <p>Thank you for your payment! We\x27re excited to start working with \x7b\x7bcompany\x7d\x7d.</p>\n                <p>Here are the next steps:</p>\n                <ol>\n                    <li>Complete our onboarding questionnaire: [LINK]</li>\n                    <li>Schedule your kickoff call: [LINK]</li>\n                    <li>Review our welcome packet: [LINK]</li>\n                </ol>\n                <p>Best regards,<br>Your Name</p>\n                "
      else
        "\n                <p>Hello \x7b\x7bfirst_name\x7d\x7d,</p>\n                <p>Thank you for your payment! We\x27re thrilled to begin working with \x7b\x7bcompany\x7d\x7d.</p>\n                <p>Here\x27s what happens next:</p>\n                <ol>\n                    <li>Fill out our onboarding form: [LINK]</li>\n                    <li>Book your initial strategy call: [LINK]</li>\n                    <li>Check out our welcome materials: [LINK]</li>\n                </ol>\n                <p>Regards,<br>Your Name</p>\n                "
    let msg : Msg := ⟨lead.email, subject,
      personalize_template env template lead, some (lead.country.getD "US")⟩
    if env.sendOk msg then
      (true, [msg], [⟨some (lead.id.getD ""), "Onboarding", "Sent onboarding email"⟩])
    else
      (false, [msg], [])

/-- `_handle_stripe_webhook(webhook_data)` (lines 227-272): on a
`checkout.session.completed` event with a non-empty `lead_id`, record a
"Payment Received" update for that lead, look the lead up in the store and
send the onboarding email.  The handler never reads or writes
`active_campaigns`, so the campaigns list passes through unchanged.  A missing
lead (`get_lead` returns `None`) makes the attribute access inside
`_send_onboarding_email` raise; that method's own `except` catches it and
returns `False`, a value the handler ignores before its `return True` — so the
handler still reports success after the status update has been written. -/
def handle_stripe_webhook (env : Env) (get_lead : String → Option Lead)
    (w : StripeWebhook) (cs : List (Option String × Campaign)) : WebhookResult :=
  if w.type_ == "checkout.session.completed" then
    if w.lead_id == "" then ⟨false, cs, [], []⟩
    else
      let upd : LeadUpdate := ⟨some w.lead_id, "Payment Received",
        "Received Stripe payment of $" ++ format_cents w.amount_total⟩
      match get_lead w.lead_id with
      | none => ⟨true, cs, [], [upd]⟩
      | some lead =>
        let onb := send_onboarding_email env lead
        ⟨true, cs, onb.2.1, upd :: onb.2.2⟩
  else ⟨false, cs, [], []⟩

/-- The 18-column sheet row `store_leads` builds for one lead (lines 138-157);
`nowStr` stands for the `datetime.now()` timestamp column. -/
def row_data (nowStr : String) (lead : Lead) : List String :=
  [lead.id.getD "", lead.first_name.getD "", lead.last_name.getD "",
   lead.email.getD "", lead.phone.getD "", lead.linkedin_url.getD "",
   lead.title.getD "", lead.company.getD "", lead.company_website.getD "",
   lead.industry.getD "", lead.company_size.getD "", lead.country.getD "",
   lead.estimated_revenue.getD "", lead.status.getD "New",
   lead.source.getD "Apollo.io", nowStr, "", lead.notes.getD ""]

/-- Result of `SheetsService.store_leads`: the returned bool and the row blocks
appended to the `US_Leads` and `India_Leads` sheets. -/
structure StoreResult where
  ok : Bool
  us_values : List (List String)
  india_values : List (List String)
deriving DecidableEq

/-- `store_leads(leads)` (lines 114-196): fail when the service is not
initialized or the list is empty; otherwise append the rows of leads with
country exactly `"US"` to the US sheet and of leads with country exactly
`"IN"` to the India sheet — a lead with any other country is put in neither
group — and return `True` (the external append calls are modeled as
succeeding). -/
def store_leads (service : Bool) (nowStr : String) (leads : List Lead) : StoreResult :=
  if !service then ⟨false, [], []⟩
  else if leads.isEmpty then ⟨false, [], []⟩
  else
    ⟨true,
     (leads.filter (fun l => l.country == some "US")).map (row_data nowStr),
     (leads.filter (fun l => l.country == some "IN")).map (row_data nowStr)⟩

/-- Python `round(x)`: round half to even (banker's rounding), on exact
rational values. -/
def py_round (x : ℚ) : ℤ :=
  if Int.fract x = 1/2 then (if Even ⌊x⌋ then ⌊x⌋ else ⌊x⌋ + 1) else round x

/-- Python `round(x, 2)` on exact rational values. -/
def py_round_2 (x : ℚ) : ℚ :=
  (py_round (x * 100) : ℚ) / 100

/-- `TrackingService._calculate_percentage(part, total)` (lines 163-167). -/
def calculate_percentage (part total : ℚ) : ℚ :=
  if total = 0 then 0 else py_round_2 ((part / total) * 100)

/-- Modelled from the spec: the reference percentage definition of §4.5 and
claim C9 — `round((part / total) * 100, 2)` when `total > 0` and exactly `0.0`
when `total = 0`.  Stated separately from `calculate_percentage` for the
refinement comparison. -/
def spec_percentage_rate (part total : ℚ) : ℚ :=
  if 0 < total then py_round_2 ((part / total) * 100) else 0

/-- The `by_status` count `get_analytics_data` builds (lines 393-397 and
404-408): the number of leads whose status (default "New") equals `st`. -/
def status_count (leads : List Lead) (st : String) : Nat :=
  (leads.filter (fun l => l.status.getD "New" == st)).length

/-- The `overall_conversion_rate` computation of `get_analytics_data`
(lines 410-417): `(total_paid / total_leads) * 100` when there is at least one
lead, else the initial value 0. -/
def overall_conversion_rate (us_leads india_leads : List Lead) : ℚ :=
  let total_leads := us_leads.length + india_leads.length
  let total_paid :=
    status_count us_leads "Payment Received" + status_count india_leads "Payment Received"
  if 0 < total_leads then ((total_paid : ℚ) / (total_leads : ℚ)) * 100 else 0

/-! ### Concrete fixtures used by witnesses and counterexamples -/

/-- Environment in which every dispatch attempt succeeds. -/
def env_ok : Env :=
  ⟨fun _ => true, "https://calendly.com/yourusername",
   some "gmail-user", some "gmail-pw", some "outlook-user", some "outlook-pw"⟩

/-- Environment in which every dispatch attempt fails. -/
def env_fail : Env :=
  ⟨fun _ => false, "https://calendly.com/yourusername",
   some "gmail-user", some "gmail-pw", some "outlook-user", some "outlook-pw"⟩

/-- A concrete US lead. -/
def lead_a : Lead :=
  { Lead.blank with
    id := some "L1"
    first_name := some "Ann"
    company := some "Acme"
    email := some "ann@example.com"
    country := some "US"
    industry := some "Retail" }

/-- A fresh campaign record for `lead_a`, due at any `now ≥ 0`. -/
def camp_a : Campaign := ⟨lead_a, "initial", 0, 0, 3, 0⟩

/-- A campaign record for `lead_a` that has exhausted its follow-ups. -/
def camp_exhausted : Campaign := ⟨lead_a, "initial", 0, 3, 3, 0⟩

/-! ### Helper lemmas -/

/-- Replacing a pattern that does not occur leaves the list unchanged. -/
theorem pyReplaceAux_no_occ (pat rep : List Char) (_hp : pat ≠ []) :
    ∀ l : List Char, ¬ pat <:+: l → pyReplaceAux pat rep l = l := by
  intro l
  induction l with
  | nil => intro _; simp [pyReplaceAux]
  | cons c cs ih =>
    intro h
    rw [pyReplaceAux]
    have hnp : ¬ pat.isPrefixOf (c :: cs) := by
      intro hpre
      exact h (List.IsPrefix.isInfix (List.isPrefixOf_iff_prefix.mp hpre))
    rw [if_neg hnp, ih (fun hin => h (List.infix_cons hin))]

/-- String form: a pattern with no occurrence in `s` is not replaced. -/
theorem pyReplace_no_occ (s pat rep : String) (hp : pat.data ≠ [])
    (h : ¬ pat.data <:+: s.data) : pyReplace s pat rep = s := by
  unfold pyReplace
  rw [pyReplaceAux_no_occ pat.data rep.data hp s.data h]

/-- Replacing the whole list by `rep` when the list is exactly the pattern. -/
theorem pyReplaceAux_self (pat rep : List Char) (hp : pat ≠ []) :
    pyReplaceAux pat rep pat = rep := by
  match pat, hp with
  | c :: cs, _ =>
    rw [pyReplaceAux, if_pos (List.isPrefixOf_iff_prefix.mpr List.prefix_rfl)]
    simp [pyReplaceAux, List.drop_length]

/-- String form: replacing a string that is exactly the pattern yields `rep`. -/
theorem pyReplace_self (pat rep : String) (hp : pat.data ≠ []) :
    pyReplace pat pat rep = rep := by
  unfold pyReplace
  rw [pyReplaceAux_self pat.data rep.data hp]

/-- Folding replacement pairs none of which occurs in `t` leaves `t` fixed. -/
theorem foldl_replace_id (l : List (String × String)) (t : String)
    (h : ∀ kv ∈ l, kv.1.data ≠ [] ∧ ¬ kv.1.data <:+: t.data) :
    l.foldl (fun acc kv => pyReplace acc kv.1 kv.2) t = t := by
  induction l with
  | nil => rfl
  | cons e rest ih =>
    have he := h e (by simp)
    rw [List.foldl_cons, pyReplace_no_occ t e.1 e.2 he.1 he.2]
    exact ih (fun kv hkv => h kv (by simp [hkv]))

/-- Unfolding of `process_follow_ups` over an append. -/
theorem process_append (env : Env) (now : Nat)
    (l1 l2 : List (Option String × Campaign)) :
    process_follow_ups env now (l1 ++ l2) =
      ⟨(process_follow_ups env now l1).campaigns ++ (process_follow_ups env now l2).campaigns,
       (process_follow_ups env now l1).dispatches ++ (process_follow_ups env now l2).dispatches,
       (process_follow_ups env now l1).updates ++ (process_follow_ups env now l2).updates⟩ := by
  induction l1 with
  | nil => simp [process_follow_ups]
  | cons e rest ih => simp [process_follow_ups, ih]

/-- Every campaign surviving a tick is the image of an input entry under
`step_campaign`. -/
theorem mem_process_campaigns {env : Env} {now : Nat}
    {cs : List (Option String × Campaign)} {e' : Option String × Campaign}
    (h : e' ∈ (process_follow_ups env now cs).campaigns) :
    ∃ e, e ∈ cs ∧ (step_campaign env now e).1 = some e' := by
  induction cs with
  | nil => simp [process_follow_ups] at h
  | cons e rest ih =>
    simp only [process_follow_ups, List.mem_append] at h
    rcases h with h | h
    · refine ⟨e, by simp, ?_⟩
      cases hs : (step_campaign env now e).1 with
      | none => simp [hs] at h
      | some x => simp [hs] at h; simp [hs, h]
    · obtain ⟨e0, he0, hstep⟩ := ih h
      exact ⟨e0, by simp [he0], hstep⟩

/-- A single step never pushes `follow_up_count` past `max_follow_ups`. -/
theorem step_campaign_keeps_bound (env : Env) (now : Nat)
    (e x : Option String × Campaign)
    (h : e.2.follow_up_count ≤ e.2.max_follow_ups)
    (hx : (step_campaign env now e).1 = some x) :
    x.2.follow_up_count ≤ x.2.max_follow_ups := by
  unfold step_campaign at hx
  split_ifs at hx with h1 h2 h3 <;> simp only [Option.some.injEq] at hx
  · exact hx ▸ h
  · rw [← hx]; simp; omega
  · rw [← hx]; simp; omega

/-- The per-tick invariant: `follow_up_count ≤ max_follow_ups` is preserved. -/
theorem process_keeps_bound (env : Env) (now : Nat)
    (cs : List (Option String × Campaign))
    (h : ∀ e ∈ cs, e.2.follow_up_count ≤ e.2.max_follow_ups) :
    ∀ e' ∈ (process_follow_ups env now cs).campaigns,
      e'.2.follow_up_count ≤ e'.2.max_follow_ups := by
  intro e' he'
  obtain ⟨e, he, hstep⟩ := mem_process_campaigns he'
  exact step_campaign_keeps_bound env now e e' (h e he) hstep

/-- Campaigns inserted by `assoc_set` are the new entry or an old one. -/
theorem mem_assoc_set {k : Option String} {v : Campaign}
    {l : List (Option String × Campaign)} {e : Option String × Campaign}
    (h : e ∈ assoc_set k v l) : e = (k, v) ∨ e ∈ l := by
  induction l with
  | nil => simpa [assoc_set] using h
  | cons x rest ih =>
    unfold assoc_set at h
    split_ifs at h with hx
    · rcases List.mem_cons.mp h with h | h
      · exact Or.inl h
      · exact Or.inr (List.mem_cons_of_mem x h)
    · rcases List.mem_cons.mp h with h | h
      · exact Or.inr (by simp [h])
      · rcases ih h with h | h
        · exact Or.inl h
        · exact Or.inr (List.mem_cons_of_mem x h)

/-- Campaign records produced by `start_campaign` preserve the property that
every entry has `follow_up_count = 0` and `max_follow_ups = 3`. -/
theorem start_campaign_entries (env : Env) (now : Nat) (leads : List Lead) :
    ∀ cs, (∀ e ∈ cs, e.2.follow_up_count = 0 ∧ e.2.max_follow_ups = 3) →
      ∀ e ∈ (start_campaign env now leads cs).campaigns,
        e.2.follow_up_count = 0 ∧ e.2.max_follow_ups = 3 := by
  induction leads with
  | nil => intro cs h e he; exact h e (by simpa [start_campaign] using he)
  | cons lead rest ih =>
    intro cs h e he
    by_cases h1 : email_falsy lead.email
    · exact ih cs h e (by simpa [start_campaign, h1] using he)
    · by_cases h2 : env.sendOk (stage_msg env "initial" lead)
      · refine ih (assoc_set lead.id ⟨lead, "initial", now, 0, 3, now + 3⟩ cs) ?_ e
          (by simpa [start_campaign, h1, h2] using he)
        intro x hx
        rcases mem_assoc_set hx with hx | hx
        · simp [hx]
        · exact h x hx
      · exact ih cs h e (by simpa [start_campaign, h1, h2] using he)

/-! ### Claim theorems -/

/-- A campaign with one successful follow-up behind it (used by `C1_witness`). -/
def camp_after_tick : Campaign := ⟨lead_a, "initial", 5, 1, 3, 8⟩

/-- Claim C1: across any sequence of follow-up ticks, `follow_up_count` never
exceeds `max_follow_ups` (the configured maximum, 3 on every record
`start_campaign` creates); and a tick that reaches a due campaign whose count
has hit the maximum removes its record, dispatches nothing for it, and records
a closing "No Response" note for the lead. -/
theorem C1_follow_up_count_never_exceeds_max :
    (∀ (env : Env) (nows : List Nat) (cs : List (Option String × Campaign)),
        (∀ e ∈ cs, e.2.follow_up_count ≤ e.2.max_follow_ups) →
        ∀ e ∈ run_ticks env nows cs, e.2.follow_up_count ≤ e.2.max_follow_ups)
  ∧ (∀ (env : Env) (now : Nat) (pre post : List (Option String × Campaign))
        (k : Option String) (c : Campaign),
        c.next_follow_up ≤ now → c.max_follow_ups ≤ c.follow_up_count →
        process_follow_ups env now (pre ++ (k, c) :: post) =
          ⟨(process_follow_ups env now pre).campaigns ++
             (process_follow_ups env now post).campaigns,
           (process_follow_ups env now pre).dispatches ++
             (process_follow_ups env now post).dispatches,
           (process_follow_ups env now pre).updates ++
             ⟨k, "No Response",
               "Completed " ++ toString c.follow_up_count ++
                 " follow-ups with no response"⟩ ::
               (process_follow_ups env now post).updates⟩)
  ∧ (∀ (env : Env) (now : Nat) (leads : List Lead),
        ∀ e ∈ (start_campaign env now leads []).campaigns,
          e.2.follow_up_count = 0 ∧ e.2.max_follow_ups = 3) := by
  refine ⟨?_, ?_, ?_⟩
  · intro env nows
    induction nows with
    | nil => intro cs h; simpa [run_ticks] using h
    | cons n ns ih =>
      intro cs h
      exact ih _ (process_keeps_bound env n cs h)
  · intro env now pre post k c h1 h2
    have hstep : step_campaign env now (k, c) =
        (none, [],
         [⟨k, "No Response",
           "Completed " ++ toString c.follow_up_count ++
             " follow-ups with no response"⟩]) := by
      unfold step_campaign
      rw [if_neg (by simp; omega), if_pos h2]
    rw [process_append]
    simp [process_follow_ups, hstep]
  · intro env now leads
    exact start_campaign_entries env now leads [] (by simp)

/-- Witness for C1 at concrete inputs: one tick at day 5 on a fresh campaign
keeps the count within bound; the exhausted campaign is closed with its note;
and a freshly started campaign carries count 0 and maximum 3. -/
theorem C1_witness :
    ((some "L1", camp_after_tick).2.follow_up_count ≤
       (some "L1", camp_after_tick).2.max_follow_ups)
  ∧ (process_follow_ups env_ok 5 ([] ++ (some "L1", camp_exhausted) :: []) =
      ⟨(process_follow_ups env_ok 5 []).campaigns ++
         (process_follow_ups env_ok 5 []).campaigns,
       (process_follow_ups env_ok 5 []).dispatches ++
         (process_follow_ups env_ok 5 []).dispatches,
       (process_follow_ups env_ok 5 []).updates ++
         ⟨some "L1", "No Response",
           "Completed " ++ toString camp_exhausted.follow_up_count ++
             " follow-ups with no response"⟩ ::
           (process_follow_ups env_ok 5 []).updates⟩)
  ∧ ((some "L1", (⟨lead_a, "initial", 0, 0, 3, 0 + 3⟩ : Campaign)).2.follow_up_count = 0
      ∧ (some "L1", (⟨lead_a, "initial", 0, 0, 3, 0 + 3⟩ : Campaign)).2.max_follow_ups = 3) :=
  ⟨C1_follow_up_count_never_exceeds_max.1 env_ok [5] [(some "L1", camp_a)]
      (by decide) (some "L1", camp_after_tick) (by decide),
   C1_follow_up_count_never_exceeds_max.2.1 env_ok 5 [] [] (some "L1")
      camp_exhausted (by decide) (by decide),
   C1_follow_up_count_never_exceeds_max.2.2 env_ok 0 [lead_a]
      (some "L1", (⟨lead_a, "initial", 0, 0, 3, 0 + 3⟩ : Campaign)) (by decide)⟩

/-- Claim C2 counterexample: a due campaign whose dispatch fails.  One dispatch
is attempted, it fails (`env_fail.sendOk` is identically false), and yet the
stored record changes: `follow_up_count` goes from 0 to 1.  This refutes the
claim that on dispatch failure `follow_up_count`, `last_contact` and
`next_follow_up_at` all keep their values. -/
theorem C2_counterexample :
    (process_follow_ups env_fail 5 [(some "L1", camp_a)]).dispatches.length = 1
  ∧ (process_follow_ups env_fail 5 [(some "L1", camp_a)]).dispatches.all
      (fun m => env_fail.sendOk m) = false
  ∧ camp_a.follow_up_count = 0
  ∧ (process_follow_ups env_fail 5 [(some "L1", camp_a)]).campaigns =
      [(some "L1", ⟨lead_a, "initial", 0, 1, 3, 0⟩)] := by
  refine ⟨rfl, rfl, rfl, ?_⟩
  decide

/-- Claim C2 (amended): when the dispatch of a due follow-up fails, the
campaign record keeps its `last_contact` and `next_follow_up` (so the campaign
is still due and is retried on the next tick), and no lead update is recorded —
but `follow_up_count` is incremented even on failure (the increment happens
before the send attempt, line 423), so the retry uses the next template in the
sequence. -/
theorem C2_amended_failed_dispatch :
    ∀ (env : Env) (now : Nat) (pre post : List (Option String × Campaign))
      (k : Option String) (c : Campaign),
      c.next_follow_up ≤ now → c.follow_up_count < c.max_follow_ups →
      env.sendOk (follow_up_msg env c) = false →
      process_follow_ups env now (pre ++ (k, c) :: post) =
        ⟨(process_follow_ups env now pre).campaigns ++
           (k, { c with follow_up_count := c.follow_up_count + 1 }) ::
             (process_follow_ups env now post).campaigns,
         (process_follow_ups env now pre).dispatches ++
           follow_up_msg env c ::
             (process_follow_ups env now post).dispatches,
         (process_follow_ups env now pre).updates ++
           (process_follow_ups env now post).updates⟩ := by
  intro env now pre post k c h1 h2 h3
  have hstep : step_campaign env now (k, c) =
      (some (k, { c with follow_up_count := c.follow_up_count + 1 }),
       [follow_up_msg env c], []) := by
    unfold step_campaign
    rw [if_neg (by simp; omega), if_neg (by simp; omega), if_neg (by simp [h3])]
  rw [process_append]
  simp [process_follow_ups, hstep]

/-- Witness for the amended C2 at a concrete failing dispatch. -/
theorem C2_witness :
    process_follow_ups env_fail 5 ([] ++ (some "L1", camp_a) :: []) =
      ⟨(process_follow_ups env_fail 5 []).campaigns ++
         (some "L1", { camp_a with follow_up_count := camp_a.follow_up_count + 1 }) ::
           (process_follow_ups env_fail 5 []).campaigns,
       (process_follow_ups env_fail 5 []).dispatches ++
         follow_up_msg env_fail camp_a ::
           (process_follow_ups env_fail 5 []).dispatches,
       (process_follow_ups env_fail 5 []).updates ++
         (process_follow_ups env_fail 5 []).updates⟩ :=
  C2_amended_failed_dispatch env_fail 5 [] [] (some "L1") camp_a
    (by decide) (by decide) rfl

/-- Claim C3 counterexample: after a tick whose dispatch failed, running the
tick again with the same `now` attempts another dispatch and changes the
state again — refuting unconditional same-day idempotence. -/
theorem C3_counterexample :
    (process_follow_ups env_fail 5
        ((process_follow_ups env_fail 5 [(some "L1", camp_a)]).campaigns)).dispatches.length = 1
  ∧ (process_follow_ups env_fail 5
        ((process_follow_ups env_fail 5 [(some "L1", camp_a)]).campaigns)).campaigns ≠
      (process_follow_ups env_fail 5 [(some "L1", camp_a)]).campaigns := by
  refine ⟨rfl, ?_⟩
  decide

/-- A tick on campaigns that are all scheduled in the future does nothing. -/
theorem process_skip_all (env : Env) (now : Nat)
    (cs : List (Option String × Campaign))
    (h : ∀ e ∈ cs, now < e.2.next_follow_up) :
    process_follow_ups env now cs = ⟨cs, [], []⟩ := by
  induction cs with
  | nil => rfl
  | cons e rest ih =>
    have hstep : step_campaign env now e = (some e, [], []) := by
      unfold step_campaign
      rw [if_pos (h e (by simp))]
    simp [process_follow_ups, hstep, ih (fun x hx => h x (by simp [hx]))]

/-- When every dispatch the tick attempts succeeds, every surviving campaign
is rescheduled strictly into the future. -/
theorem process_future_of_success (env : Env) (now : Nat)
    (cs : List (Option String × Campaign))
    (h : ∀ m ∈ (process_follow_ups env now cs).dispatches, env.sendOk m = true) :
    ∀ e' ∈ (process_follow_ups env now cs).campaigns, now < e'.2.next_follow_up := by
  induction cs with
  | nil => simp [process_follow_ups]
  | cons e rest ih =>
    intro e' he'
    by_cases h1 : now < e.2.next_follow_up
    · have hstep : step_campaign env now e = (some e, [], []) := by
        unfold step_campaign
        rw [if_pos h1]
      simp only [process_follow_ups, hstep, Option.toList_some, List.nil_append,
        List.singleton_append, List.mem_cons] at he' h
      rcases he' with rfl | he'
      · exact h1
      · exact ih h e' he'
    · by_cases h2 : e.2.max_follow_ups ≤ e.2.follow_up_count
      · have hstep : step_campaign env now e =
            (none, [],
             [⟨e.1, "No Response",
               "Completed " ++ toString e.2.follow_up_count ++
                 " follow-ups with no response"⟩]) := by
          unfold step_campaign
          rw [if_neg h1, if_pos h2]
        simp only [process_follow_ups, hstep, Option.toList_none, List.nil_append] at he' h
        exact ih h e' he'
      · by_cases h3 : env.sendOk (follow_up_msg env e.2) = true
        · have hstep : step_campaign env now e =
              (some (e.1, { e.2 with follow_up_count := e.2.follow_up_count + 1,
                                     last_contact := now, next_follow_up := now + 3 }),
               [follow_up_msg env e.2],
               [⟨e.1, "Follow-up",
                 "Follow-up email #" ++ toString (e.2.follow_up_count + 1) ++ " sent"⟩]) := by
            unfold step_campaign
            rw [if_neg h1, if_neg h2, if_pos h3]
          simp only [process_follow_ups, hstep, Option.toList_some, List.nil_append,
            List.singleton_append, List.mem_cons] at he' h
          rcases he' with rfl | he'
          · simp
          · exact ih (fun m hm => h m (Or.inr hm)) e' he'
        · exfalso
          have hstep : step_campaign env now e =
              (some (e.1, { e.2 with follow_up_count := e.2.follow_up_count + 1 }),
               [follow_up_msg env e.2], []) := by
            unfold step_campaign
            rw [if_neg h1, if_neg h2, if_neg h3]
          have : env.sendOk (follow_up_msg env e.2) = true := by
            refine h (follow_up_msg env e.2) ?_
            simp [process_follow_ups, hstep]
          exact h3 this

/-- Claim C3 (amended): the daily tick is idempotent provided every dispatch
attempted by the first run succeeds: rerunning `_process_follow_ups` with the
same `now` then attempts no dispatch, records no update and leaves the
campaigns unchanged.  (When a dispatch fails, the C3 counterexample applies
instead.) -/
theorem C3_amended_tick_idempotent :
    ∀ (env : Env) (now : Nat) (cs : List (Option String × Campaign)),
      (∀ m ∈ (process_follow_ups env now cs).dispatches, env.sendOk m = true) →
      process_follow_ups env now ((process_follow_ups env now cs).campaigns) =
        ⟨(process_follow_ups env now cs).campaigns, [], []⟩ := by
  intro env now cs h
  exact process_skip_all env now _ (process_future_of_success env now cs h)

/-- Witness for the amended C3: one due campaign, all dispatches succeed. -/
theorem C3_witness :
    process_follow_ups env_ok 5
        ((process_follow_ups env_ok 5 [(some "L1", camp_a)]).campaigns) =
      ⟨(process_follow_ups env_ok 5 [(some "L1", camp_a)]).campaigns, [], []⟩ :=
  C3_amended_tick_idempotent env_ok 5 [(some "L1", camp_a)] (by decide)

/-- A reply whose body asks for a call (used by C4's witness). -/
def reply_call : ReplyData :=
  ⟨some "ann@example.com", some "Re: hi", some "Can we schedule a CALL tomorrow?"⟩

/-- Claim C4: a reply webhook that resolves to a known lead removes the lead
from active follow-up tracking (a no-op when it was already inactive); a body
containing a call-intent keyword (case-insensitively) dispatches the rendered
`call_invite` template for the lead's region and records a "Call Requested"
update, any other body records a "Replied" update and dispatches nothing. -/
theorem C4_handle_reply_classification :
    ∀ (env : Env) (d : ReplyData) (leads : List Lead)
      (cs : List (Option String × Campaign)) (lead : Lead) (rest : List Lead),
      leads.filter (fun l => l.email == some (d.from_email.getD "")) = lead :: rest →
      (handle_reply env d leads cs).ok = true
      ∧ (handle_reply env d leads cs).campaigns =
          cs.filter (fun e => !(e.1 == lead.id))
      ∧ (lead.id ∉ cs.map Prod.fst → (handle_reply env d leads cs).campaigns = cs)
      ∧ (call_keywords.any (fun k => strContains (str_lower (d.body.getD "")) k) = true →
          (handle_reply env d leads cs).dispatches =
              [call_invite_msg env lead (d.from_email.getD "")]
          ∧ (handle_reply env d leads cs).updates =
              [⟨lead.id, "Call Requested", "Lead requested a call, sent Calendly link"⟩])
      ∧ (call_keywords.any (fun k => strContains (str_lower (d.body.getD "")) k) = false →
          (handle_reply env d leads cs).dispatches = []
          ∧ (handle_reply env d leads cs).updates =
              [⟨lead.id, "Replied", "Lead replied: " ++ d.subject.getD ""⟩]) := by
  intro env d leads cs lead rest hm
  have hmain : handle_reply env d leads cs =
      if call_keywords.any (fun k => strContains (str_lower (d.body.getD "")) k) then
        ⟨true, cs.filter (fun e => !(e.1 == lead.id)),
         [call_invite_msg env lead (d.from_email.getD "")],
         [⟨lead.id, "Call Requested", "Lead requested a call, sent Calendly link"⟩]⟩
      else
        ⟨true, cs.filter (fun e => !(e.1 == lead.id)), [],
         [⟨lead.id, "Replied", "Lead replied: " ++ d.subject.getD ""⟩]⟩ := by
    simp only [handle_reply, hm]
  refine ⟨?_, ?_, ?_, ?_, ?_⟩
  · rw [hmain]; split <;> rfl
  · rw [hmain]; split <;> rfl
  · intro hid
    have hfix : cs.filter (fun e => !(e.1 == lead.id)) = cs := by
      refine List.filter_eq_self.mpr ?_
      intro e he
      have : e.1 ≠ lead.id := fun hEq => hid (hEq ▸ List.mem_map_of_mem Prod.fst he)
      simpa using this
    rw [hmain]; split <;> simp [hfix]
  · intro hw
    rw [hmain, if_pos hw]
    exact ⟨rfl, rfl⟩
  · intro hw
    rw [hmain, if_neg (by simp [hw])]
    exact ⟨rfl, rfl⟩

/-- Witness for C4: `lead_a` replies asking to schedule a call. -/
theorem C4_witness :
    (handle_reply env_ok reply_call [lead_a] [(some "L1", camp_a)]).ok = true
    ∧ (handle_reply env_ok reply_call [lead_a] [(some "L1", camp_a)]).campaigns =
        [(some "L1", camp_a)].filter (fun e => !(e.1 == lead_a.id))
    ∧ (lead_a.id ∉ [(some "L1", camp_a)].map Prod.fst →
        (handle_reply env_ok reply_call [lead_a] [(some "L1", camp_a)]).campaigns =
          [(some "L1", camp_a)])
    ∧ (call_keywords.any
          (fun k => strContains (str_lower (reply_call.body.getD "")) k) = true →
        (handle_reply env_ok reply_call [lead_a] [(some "L1", camp_a)]).dispatches =
            [call_invite_msg env_ok lead_a (reply_call.from_email.getD "")]
        ∧ (handle_reply env_ok reply_call [lead_a] [(some "L1", camp_a)]).updates =
            [⟨lead_a.id, "Call Requested", "Lead requested a call, sent Calendly link"⟩])
    ∧ (call_keywords.any
          (fun k => strContains (str_lower (reply_call.body.getD "")) k) = false →
        (handle_reply env_ok reply_call [lead_a] [(some "L1", camp_a)]).dispatches = []
        ∧ (handle_reply env_ok reply_call [lead_a] [(some "L1", camp_a)]).updates =
            [⟨lead_a.id, "Replied", "Lead replied: " ++ reply_call.subject.getD ""⟩]) :=
  C4_handle_reply_classification env_ok reply_call [lead_a] [(some "L1", camp_a)]
    lead_a [] (by decide)

/-- A payment-succeeded Stripe event for lead `L1` (2500.00 dollars in cents). -/
def stripe_ev : StripeWebhook := ⟨"checkout.session.completed", "L1", 250000⟩

/-- A lead store holding exactly `lead_a` under id `L1`. -/
def get_lead_a : String → Option Lead :=
  fun s => if s == "L1" then some lead_a else none

/-- Claim C5 counterexample: processing a payment-succeeded webhook for a lead
with an active due campaign reports success, yet the campaign record is still
there, and the next follow-up tick still dispatches a message to the lead —
refuting "after processing, the lead no longer has an active campaign record
and no subsequent follow-up tick sends it a message". -/
theorem C5_counterexample :
    (handle_stripe_webhook env_ok get_lead_a stripe_ev [(some "L1", camp_a)]).ok = true
  ∧ (handle_stripe_webhook env_ok get_lead_a stripe_ev [(some "L1", camp_a)]).campaigns =
      [(some "L1", camp_a)]
  ∧ (process_follow_ups env_ok 5
      (handle_stripe_webhook env_ok get_lead_a stripe_ev
        [(some "L1", camp_a)]).campaigns).dispatches.length = 1 := by
  refine ⟨rfl, rfl, rfl⟩

/-- Claim C5 (amended): the payment-succeeded webhook records the
"Payment Received" status for the lead, but it does not clear the pending
follow-up: `active_campaigns` passes through the handler unchanged, for every
input.  (Campaign records are removed earlier in the flow — by
`send_payment_link` or `handle_reply` — not by the payment webhook.) -/
theorem C5_amended_webhook_keeps_campaigns :
    ∀ (env : Env) (get_lead : String → Option Lead) (w : StripeWebhook)
      (cs : List (Option String × Campaign)),
      (handle_stripe_webhook env get_lead w cs).campaigns = cs
    ∧ (w.type_ = "checkout.session.completed" → w.lead_id ≠ "" →
        (⟨some w.lead_id, "Payment Received",
          "Received Stripe payment of $" ++ format_cents w.amount_total⟩ : LeadUpdate) ∈
          (handle_stripe_webhook env get_lead w cs).updates) := by
  intro env get_lead w cs
  constructor
  · unfold handle_stripe_webhook
    split <;> try rfl
    split <;> try rfl
    cases get_lead w.lead_id <;> rfl
  · intro ht hid
    have h1 : (w.type_ == "checkout.session.completed") = true := by simp [ht]
    have h2 : (w.lead_id == "") = false := by simpa using hid
    unfold handle_stripe_webhook
    rw [if_pos h1, if_neg (by simp [h2])]
    cases get_lead w.lead_id <;> simp

/-- Witness for the amended C5 at the concrete Stripe event. -/
theorem C5_witness :
    (handle_stripe_webhook env_ok get_lead_a stripe_ev [(some "L2", camp_a)]).campaigns =
      [(some "L2", camp_a)]
  ∧ (⟨some stripe_ev.lead_id, "Payment Received",
      "Received Stripe payment of $" ++ format_cents stripe_ev.amount_total⟩ : LeadUpdate) ∈
      (handle_stripe_webhook env_ok get_lead_a stripe_ev [(some "L2", camp_a)]).updates :=
  ⟨(C5_amended_webhook_keeps_campaigns env_ok get_lead_a stripe_ev [(some "L2", camp_a)]).1,
   (C5_amended_webhook_keeps_campaigns env_ok get_lead_a stripe_ev [(some "L2", camp_a)]).2
     rfl (by decide)⟩

/-- Claim C6 counterexample: an unknown (empty) country string resolves to the
Gmail connection (the India provider), the `india` template set, and the
Razorpay/INR processor — refuting the claimed default to the US-equivalent
policy for countries that do not indicate India. -/
theorem C6_counterexample :
    get_smtp_connection env_ok (some "") =
      ⟨"smtp.gmail.com", 587, env_ok.gmail_username, env_ok.gmail_password⟩
  ∧ country_code_of (some "") = "india"
  ∧ create_payment_link (some "") = Processor.razorpay
  ∧ processor_currency (create_payment_link (some "")) = "INR" :=
  ⟨rfl, rfl, rfl, rfl⟩

/-- Claim C6 (amended): only the exact country string "US" selects the US
policy (Outlook connection, Stripe/usd, "us" template set); every other value
— unknown, empty, unrecognized, or India — selects the India policy (Gmail
connection, Razorpay/INR, "india" template set).  The default for unknown
countries is thus the India-equivalent policy, not the US one. -/
theorem C6_amended_region_default :
    ∀ (env : Env) (c : Option String),
      (c ≠ some "US" →
        get_smtp_connection env c =
            ⟨"smtp.gmail.com", 587, env.gmail_username, env.gmail_password⟩
        ∧ country_code_of c = "india"
        ∧ create_payment_link c = Processor.razorpay
        ∧ processor_currency (create_payment_link c) = "INR")
    ∧ (get_smtp_connection env (some "US") =
          ⟨"smtp-mail.outlook.com", 587, env.outlook_email, env.outlook_password⟩
        ∧ country_code_of (some "US") = "us"
        ∧ create_payment_link (some "US") = Processor.stripe
        ∧ processor_currency (create_payment_link (some "US")) = "usd") := by
  intro env c
  constructor
  · intro h
    have hb : (c == some "US") = false := by simpa using h
    refine ⟨?_, ?_, ?_, ?_⟩ <;>
      simp [get_smtp_connection, country_code_of, create_payment_link,
        processor_currency, hb]
  · exact ⟨rfl, rfl, rfl, rfl⟩

/-- Witness for the amended C6 at the country string "India". -/
theorem C6_witness :
    (get_smtp_connection env_ok (some "India") =
        ⟨"smtp.gmail.com", 587, env_ok.gmail_username, env_ok.gmail_password⟩
      ∧ country_code_of (some "India") = "india"
      ∧ create_payment_link (some "India") = Processor.razorpay
      ∧ processor_currency (create_payment_link (some "India")) = "INR")
  ∧ (get_smtp_connection env_ok (some "US") =
        ⟨"smtp-mail.outlook.com", 587, env_ok.outlook_email, env_ok.outlook_password⟩
      ∧ country_code_of (some "US") = "us"
      ∧ create_payment_link (some "US") = Processor.stripe
      ∧ processor_currency (create_payment_link (some "US")) = "usd") :=
  ⟨(C6_amended_region_default env_ok (some "India")).1 (by decide),
   (C6_amended_region_default env_ok (some "India")).2⟩

/-- Shape test: a per-stage template dict with exactly the keys `us` and
`india`, in that order. -/
def us_india_shape : List (String × EmailTemplate) → Bool
  | [(k1, _), (k2, _)] => k1 == "us" && k2 == "india"
  | _ => false

/-- A shape-true list is literally `[("us", a), ("india", b)]`. -/
theorem us_india_shape_spec {ts : List (String × EmailTemplate)}
    (h : us_india_shape ts = true) : ∃ a b, ts = [("us", a), ("india", b)] := by
  match ts, h with
  | [(k1, a), (k2, b)], h =>
    simp only [us_india_shape, Bool.and_eq_true, beq_iff_eq] at h
    exact ⟨a, b, by simp [h.1, h.2]⟩

/-- A successful association-list lookup result is one of the stored values. -/
theorem exists_key_of_lookup {α β : Type} [BEq α] {l : List (α × β)} {a : α}
    {b : β} (h : l.lookup a = some b) : ∃ k, (k, b) ∈ l := by
  induction l with
  | nil => simp [List.lookup] at h
  | cons e rest ih =>
    rw [List.lookup] at h
    match e, h with
    | (k, v), h =>
      cases hk : a == k with
      | true => rw [hk] at h; simp at h; exact ⟨k, by simp [h]⟩
      | false =>
        rw [hk] at h
        obtain ⟨k2, hk2⟩ := ih h
        exact ⟨k2, by simp [hk2]⟩

/-- Every stage's template dict has the `us`/`india` shape. -/
theorem get_email_templates_shape (seq : String) :
    ∃ a b, get_email_templates seq = [("us", a), ("india", b)] := by
  unfold get_email_templates
  cases h : templates_table.lookup seq with
  | none => exact ⟨_, _, rfl⟩
  | some ts =>
    obtain ⟨k, hk⟩ := exists_key_of_lookup h
    have hall : ∀ p ∈ templates_table, us_india_shape p.2 = true := by decide
    obtain ⟨a, b, hab⟩ := us_india_shape_spec (hall (k, ts) hk)
    exact ⟨a, b, by simpa using hab⟩

/-- Picking an unknown country code from a `us`/`india` dict yields the `us`
entry. -/
theorem pick_template_default (a b : EmailTemplate) (code : String)
    (h1 : code ≠ "us") (h2 : code ≠ "india") :
    pick_template [("us", a), ("india", b)] code =
      pick_template [("us", a), ("india", b)] "us" := by
  have e1 : (code == "us") = false := by simpa using h1
  have e2 : (code == "india") = false := by simpa using h2
  unfold pick_template
  simp [List.lookup, e1, e2, Option.orElse]

/-- Claim C7 counterexample: an unknown stage key is absent from the template
table, yet `_get_email_templates` returns the `initial` stage's templates for
it instead of failing — refuting "template lookup fails with a
TemplateNotFound error". -/
theorem C7_counterexample :
    templates_table.lookup "bogus_stage" = none
  ∧ get_email_templates "bogus_stage" = initial_templates :=
  ⟨rfl, rfl⟩

/-- Claim C7 (amended): for every stage, a template-set key other than `us` and
`india` falls back to the `us` templates of that stage (first conjunct); but an
unknown stage key does not fail — `_get_email_templates` silently falls back
to the `initial` stage's templates (second conjunct). -/
theorem C7_amended_template_lookup :
    (∀ (seq code : String), code ≠ "us" → code ≠ "india" →
        pick_template (get_email_templates seq) code =
          pick_template (get_email_templates seq) "us")
  ∧ (∀ seq : String, templates_table.lookup seq = none →
        get_email_templates seq = initial_templates) := by
  constructor
  · intro seq code h1 h2
    obtain ⟨a, b, hab⟩ := get_email_templates_shape seq
    rw [hab]
    exact pick_template_default a b code h1 h2
  · intro seq h
    unfold get_email_templates
    rw [h]
    rfl

/-- Witness for the amended C7: the unknown code "uk" falls back to `us` for
the `call_invite` stage, and the unknown stage "bogus_stage" falls back to the
`initial` templates. -/
theorem C7_witness :
    pick_template (get_email_templates "call_invite") "uk" =
      pick_template (get_email_templates "call_invite") "us"
  ∧ get_email_templates "bogus_stage" = initial_templates :=
  ⟨C7_amended_template_lookup.1 "call_invite" "uk" (by decide) (by decide),
   C7_amended_template_lookup.2 "bogus_stage" rfl⟩

/-- The country column of a stored row is at index 11. -/
theorem row_data_country (s : String) (l : Lead) :
    (row_data s l).get? 11 = some (l.country.getD "") := rfl

/-- Claim C9: `_calculate_percentage` equals the spec's reference definition on
all non-negative inputs, and a 10-lead snapshot with exactly one lead in
"Payment Received" status yields an overall conversion rate of exactly 10. -/
theorem C9_percentage_matches_reference :
    (∀ part total : ℕ,
        calculate_percentage (part : ℚ) (total : ℚ) =
          spec_percentage_rate (part : ℚ) (total : ℚ))
  ∧ (∀ us india : List Lead,
        us.length + india.length = 10 →
        status_count us "Payment Received" + status_count india "Payment Received" = 1 →
        overall_conversion_rate us india = 10) := by
  constructor
  · intro part total
    unfold calculate_percentage spec_percentage_rate
    rcases Nat.eq_zero_or_pos total with h | h
    · subst h; simp
    · have h1 : ¬ ((total : ℚ) = 0) := by
        simpa using Nat.pos_iff_ne_zero.mp h
      have h2 : (0 : ℚ) < (total : ℚ) := by exact_mod_cast h
      rw [if_neg h1, if_pos h2]
  · intro us india h1 h2
    unfold overall_conversion_rate
    rw [h1, h2]
    norm_num

/-- A lead with the "Payment Received" status. -/
def paid_lead : Lead := { Lead.blank with status := some "Payment Received" }

/-- Witness for C9: the reference shape at `part = 3, total = 8`, and the
10-lead snapshot with one paid lead giving rate 10. -/
theorem C9_witness :
    calculate_percentage ((3 : ℕ) : ℚ) ((8 : ℕ) : ℚ) =
      spec_percentage_rate ((3 : ℕ) : ℚ) ((8 : ℕ) : ℚ)
  ∧ overall_conversion_rate (List.replicate 9 Lead.blank ++ [paid_lead]) [] = 10 :=
  ⟨C9_percentage_matches_reference.1 3 8,
   C9_percentage_matches_reference.2 (List.replicate 9 Lead.blank ++ [paid_lead]) []
     (by decide) (by decide)⟩

/-- Claim C10: `store_leads` on a non-empty lead list (with the sheet service
initialized) reports success and appends exactly the rows of leads whose
country is the exact string "US" (to the US sheet) or "IN" (to the India
sheet); a lead with any other country value is stored in neither sheet and no
error is reported. -/
theorem C10_store_leads_country_filter :
    ∀ (nowStr : String) (leads : List Lead),
      leads ≠ [] →
      (store_leads true nowStr leads).ok = true
      ∧ (store_leads true nowStr leads).us_values =
          (leads.filter (fun l => l.country == some "US")).map (row_data nowStr)
      ∧ (store_leads true nowStr leads).india_values =
          (leads.filter (fun l => l.country == some "IN")).map (row_data nowStr)
      ∧ (∀ l ∈ leads, l.country ≠ some "US" → l.country ≠ some "IN" →
          row_data nowStr l ∉ (store_leads true nowStr leads).us_values
          ∧ row_data nowStr l ∉ (store_leads true nowStr leads).india_values) := by
  intro nowStr leads hne
  have hemp : leads.isEmpty = false := by
    cases leads with
    | nil => exact absurd rfl hne
    | cons a as => rfl
  have hmain : store_leads true nowStr leads =
      ⟨true,
       (leads.filter (fun l => l.country == some "US")).map (row_data nowStr),
       (leads.filter (fun l => l.country == some "IN")).map (row_data nowStr)⟩ := by
    unfold store_leads
    rw [hemp]
    rfl
  refine ⟨by rw [hmain], by rw [hmain], by rw [hmain], ?_⟩
  intro l _ h1 h2
  rw [hmain]
  constructor
  · intro hmem
    obtain ⟨l', hl', heq⟩ := List.mem_map.mp hmem
    have hc' : l'.country = some "US" := by
      simpa using (List.mem_filter.mp hl').2
    have h11 : (row_data nowStr l').get? 11 = (row_data nowStr l).get? 11 := by
      rw [heq]
    rw [row_data_country, row_data_country, hc'] at h11
    cases hc : l.country with
    | none => rw [hc] at h11; simp at h11
    | some x =>
      rw [hc] at h11
      simp at h11
      exact h1 (by rw [hc, h11])
  · intro hmem
    obtain ⟨l', hl', heq⟩ := List.mem_map.mp hmem
    have hc' : l'.country = some "IN" := by
      simpa using (List.mem_filter.mp hl').2
    have h11 : (row_data nowStr l').get? 11 = (row_data nowStr l).get? 11 := by
      rw [heq]
    rw [row_data_country, row_data_country, hc'] at h11
    cases hc : l.country with
    | none => rw [hc] at h11; simp at h11
    | some x =>
      rw [hc] at h11
      simp at h11
      exact h2 (by rw [hc, h11])

/-- An India lead (country code "IN"). -/
def lead_in : Lead := { Lead.blank with id := some "L2", country := some "IN" }

/-- A lead whose country is spelled "India" — not one of the two exact codes. -/
def lead_other : Lead := { Lead.blank with id := some "L3", country := some "India" }

/-- The three-lead batch used by C10's witness. -/
def demo_leads : List Lead := [lead_a, lead_in, lead_other]

/-- Witness for C10: the US and IN leads are grouped into their sheets, the
"India"-spelled lead is stored in neither, and the call reports success. -/
theorem C10_witness :
    (store_leads true "2024-01-01 00:00:00" demo_leads).ok = true
  ∧ (store_leads true "2024-01-01 00:00:00" demo_leads).us_values =
      (demo_leads.filter (fun l => l.country == some "US")).map
        (row_data "2024-01-01 00:00:00")
  ∧ (store_leads true "2024-01-01 00:00:00" demo_leads).india_values =
      (demo_leads.filter (fun l => l.country == some "IN")).map
        (row_data "2024-01-01 00:00:00")
  ∧ (row_data "2024-01-01 00:00:00" lead_other ∉
      (store_leads true "2024-01-01 00:00:00" demo_leads).us_values
     ∧ row_data "2024-01-01 00:00:00" lead_other ∉
      (store_leads true "2024-01-01 00:00:00" demo_leads).india_values) :=
  ⟨(C10_store_leads_country_filter "2024-01-01 00:00:00" demo_leads (by decide)).1,
   (C10_store_leads_country_filter "2024-01-01 00:00:00" demo_leads (by decide)).2.1,
   (C10_store_leads_country_filter "2024-01-01 00:00:00" demo_leads (by decide)).2.2.1,
   (C10_store_leads_country_filter "2024-01-01 00:00:00" demo_leads (by decide)).2.2.2
     lead_other (by decide) (by decide) (by decide)⟩

/-- Chunk safety for one pattern: `blocks pat ch = true` says no occurrence of
`pat` can start inside `ch`, however the text continues after `ch` — every
nonempty suffix of `ch` is neither a prefix of `pat` nor has `pat` as a
prefix. -/
def blocks (pat ch : List Char) : Bool :=
  ch.tails.all (fun s => s.isEmpty || (!(s.isPrefixOf pat) && !(pat.isPrefixOf s)))

/-- Unpacking `blocks` over a cons cell. -/
theorem blocks_cons {pat : List Char} {c : Char} {cs : List Char}
    (h : blocks pat (c :: cs) = true) :
    ((c :: cs).isPrefixOf pat) = false ∧ (pat.isPrefixOf (c :: cs)) = false ∧
      blocks pat cs = true := by
  unfold blocks at h ⊢
  rw [List.tails_cons, List.all_cons, Bool.and_eq_true] at h
  obtain ⟨h1, h2⟩ := h
  simp only [List.isEmpty_cons, Bool.false_or, Bool.and_eq_true,
    Bool.not_eq_true'] at h1
  exact ⟨h1.1, h1.2, h2⟩

/-- A nonempty pattern never blocks itself. -/
theorem blocks_ne {pat ch : List Char} (hpat : pat ≠ [])
    (hb : blocks pat ch = true) : ch ≠ pat := by
  intro he
  subst he
  cases ch with
  | nil => exact hpat rfl
  | cons c cs =>
    obtain ⟨h1, -, -⟩ := blocks_cons hb
    have ht : (c :: cs).isPrefixOf (c :: cs) = true :=
      List.isPrefixOf_iff_prefix.mpr List.prefix_rfl
    rw [ht] at h1
    exact Bool.noConfusion h1

/-- A chunk without the placeholder-opening character blocks every pattern that
starts with it. -/
theorem blocks_of_no_open (pat ch : List Char) (hp : pat.head? = some '\x7b')
    (hch : ∀ c ∈ ch, c ≠ '\x7b') : blocks pat ch = true := by
  obtain ⟨pt, rfl⟩ : ∃ pt, pat = '\x7b' :: pt := by
    cases pat with
    | nil => simp at hp
    | cons p pt => simp only [List.head?_cons, Option.some.injEq] at hp; exact ⟨pt, by rw [hp]⟩
  unfold blocks
  rw [List.all_eq_true]
  intro s hs
  rw [List.mem_tails] at hs
  cases s with
  | nil => simp
  | cons c cs =>
    have hc : c ≠ '\x7b' := hch c (hs.subset (List.mem_cons_self c cs))
    simp only [List.isEmpty_cons, Bool.false_or, Bool.and_eq_true,
      Bool.not_eq_true']
    constructor
    · cases hq : (c :: cs).isPrefixOf ('\x7b' :: pt) with
      | false => rfl
      | true =>
        obtain ⟨t, ht⟩ := List.isPrefixOf_iff_prefix.mp hq
        rw [List.cons_append] at ht
        injection ht with hh _
        exact absurd hh hc
    · cases hq : ('\x7b' :: pt).isPrefixOf (c :: cs) with
      | false => rfl
      | true =>
        obtain ⟨t, ht⟩ := List.isPrefixOf_iff_prefix.mp hq
        rw [List.cons_append] at ht
        injection ht with hh _
        exact absurd hh.symm hc

/-- Scanning cannot match inside a blocking chunk, whatever follows it. -/
theorem aux_blocked (pat rep : List Char) :
    ∀ ch, blocks pat ch = true →
      ∀ tail, pyReplaceAux pat rep (ch ++ tail) = ch ++ pyReplaceAux pat rep tail := by
  intro ch
  induction ch with
  | nil => intro _ tail; simp
  | cons c cs ih =>
    intro hb tail
    obtain ⟨h1, h2, h3⟩ := blocks_cons hb
    have hno : ¬ (pat.isPrefixOf (c :: (cs ++ tail)) = true) := by
      intro hx
      have hp : pat <+: (c :: cs) ++ tail := by
        rw [List.cons_append]
        exact List.isPrefixOf_iff_prefix.mp hx
      rcases List.prefix_or_prefix_of_prefix hp (List.prefix_append (c :: cs) tail)
        with hcase | hcase
      · rw [← List.isPrefixOf_iff_prefix, h2] at hcase
        exact Bool.noConfusion hcase
      · rw [← List.isPrefixOf_iff_prefix, h1] at hcase
        exact Bool.noConfusion hcase
    rw [List.cons_append, pyReplaceAux, if_neg hno, ih h3 tail, List.cons_append]

/-- One replacement pass over a chunk decomposition of the text: chunks equal
to the pattern are replaced, blocking chunks pass through unchanged. -/
theorem pass_concat (pat rep : List Char) (hpat : pat ≠ []) :
    ∀ chunks : List (List Char),
      (∀ ch ∈ chunks, ch = pat ∨ blocks pat ch = true) →
      pyReplaceAux pat rep chunks.flatten =
        (chunks.map (fun ch => if ch = pat then rep else ch)).flatten := by
  intro chunks
  induction chunks with
  | nil => intro _; simp [pyReplaceAux]
  | cons ch rest ih =>
    intro h
    have hrest := fun x hx => h x (List.mem_cons_of_mem ch hx)
    rcases h ch (List.mem_cons_self ch rest) with heq | hbl
    · rw [heq, List.flatten_cons, List.map_cons, if_pos rfl, List.flatten_cons]
      cases pat with
      | nil => exact absurd rfl hpat
      | cons p ps =>
        have hpre : (p :: ps).isPrefixOf (p :: (ps ++ rest.flatten)) = true := by
          rw [← List.cons_append]
          exact List.isPrefixOf_iff_prefix.mpr (List.prefix_append _ _)
        rw [List.cons_append, pyReplaceAux, if_pos hpre]
        have hd : (ps ++ rest.flatten).drop ((p :: ps).length - 1) = rest.flatten := by
          simp only [List.length_cons, Nat.add_sub_cancel]
          exact List.drop_left ps rest.flatten
        rw [hd, ih hrest]
    · have hne : ch ≠ pat := blocks_ne hpat hbl
      rw [List.flatten_cons, aux_blocked pat rep ch hbl rest.flatten, ih hrest,
        List.map_cons, if_neg hne, List.flatten_cons]

/-- Sequential replacement passes over a chunk decomposition act as a single
simultaneous substitution, provided the keys pairwise block each other, every
value blocks every key, and each chunk is a key or blocks all keys. -/
theorem fold_passes :
    ∀ (pairs : List (List Char × List Char)) (chunks : List (List Char)),
      (∀ kv ∈ pairs, kv.1 ≠ []) →
      (∀ kv ∈ pairs, ∀ kv' ∈ pairs, kv.1 ≠ kv'.1 → blocks kv.1 kv'.1 = true) →
      (∀ kv ∈ pairs, ∀ kv' ∈ pairs, blocks kv'.1 kv.2 = true) →
      (∀ ch ∈ chunks, (∃ kv ∈ pairs, ch = kv.1) ∨ ∀ kv ∈ pairs, blocks kv.1 ch = true) →
      pairs.foldl (fun acc kv => pyReplaceAux kv.1 kv.2 acc) chunks.flatten =
        (chunks.map (fun ch =>
          ((pairs.find? (fun kv => kv.1 == ch)).map Prod.snd).getD ch)).flatten := by
  intro pairs
  induction pairs with
  | nil =>
    intro chunks _ _ _ _
    simp
  | cons kv rest ih =>
    intro chunks h1 h3 h4 h2
    have hkv1 : kv.1 ≠ [] := h1 kv (List.mem_cons_self _ _)
    have hchunks : ∀ ch ∈ chunks, ch = kv.1 ∨ blocks kv.1 ch = true := by
      intro ch hch
      rcases h2 ch hch with ⟨kv0, hkv0, heq⟩ | hall
      · by_cases he : kv0.1 = kv.1
        · exact Or.inl (heq.trans he)
        · exact Or.inr (heq ▸ h3 kv (List.mem_cons_self _ _) kv0 hkv0 (fun hx => he hx.symm))
      · exact Or.inr (hall kv (List.mem_cons_self _ _))
    rw [List.foldl_cons, pass_concat kv.1 kv.2 hkv1 chunks hchunks]
    have h1' : ∀ kv0 ∈ rest, kv0.1 ≠ [] :=
      fun kv0 h => h1 kv0 (List.mem_cons_of_mem _ h)
    have h3' : ∀ kv0 ∈ rest, ∀ kv0' ∈ rest, kv0.1 ≠ kv0'.1 → blocks kv0.1 kv0'.1 = true :=
      fun kv0 h kv0' h' =>
        h3 kv0 (List.mem_cons_of_mem _ h) kv0' (List.mem_cons_of_mem _ h')
    have h4' : ∀ kv0 ∈ rest, ∀ kv0' ∈ rest, blocks kv0'.1 kv0.2 = true :=
      fun kv0 h kv0' h' =>
        h4 kv0 (List.mem_cons_of_mem _ h) kv0' (List.mem_cons_of_mem _ h')
    have h2' : ∀ ch' ∈ chunks.map (fun ch => if ch = kv.1 then kv.2 else ch),
        (∃ kv0 ∈ rest, ch' = kv0.1) ∨ ∀ kv0 ∈ rest, blocks kv0.1 ch' = true := by
      intro ch' hch'
      obtain ⟨ch, hch, rfl⟩ := List.mem_map.mp hch'
      by_cases he : ch = kv.1
      · right
        intro kv0 hkv0
        rw [if_pos he]
        exact h4 kv (List.mem_cons_self _ _) kv0 (List.mem_cons_of_mem _ hkv0)
      · rw [if_neg he]
        rcases h2 ch hch with ⟨kv0, hkv0, heq⟩ | hall
        · rcases List.mem_cons.mp hkv0 with rfl | hkv0'
          · exact absurd heq he
          · exact Or.inl ⟨kv0, hkv0', heq⟩
        · exact Or.inr (fun kv0 hkv0 => hall kv0 (List.mem_cons_of_mem _ hkv0))
    rw [ih (chunks.map (fun ch => if ch = kv.1 then kv.2 else ch)) h1' h3' h4' h2',
      List.map_map]
    congr 1
    refine List.map_congr_left ?_
    intro ch hch
    simp only [Function.comp_apply]
    by_cases he : ch = kv.1
    · have hhead : ((kv :: rest).find? (fun kv0 => kv0.1 == ch)) = some kv :=
        List.find?_cons_of_pos _ (by simp [he])
      rw [if_pos he, hhead]
      have hnone : rest.find? (fun kv0 => kv0.1 == kv.2) = none := by
        rw [List.find?_eq_none]
        intro kv0 hkv0
        simp only [beq_iff_eq]
        intro heq
        have hb := h4 kv (List.mem_cons_self _ _) kv0 (List.mem_cons_of_mem _ hkv0)
        rw [← heq] at hb
        exact blocks_ne (h1 kv0 (List.mem_cons_of_mem _ hkv0)) hb rfl
      rw [hnone]
      simp
    · have hhead : ((kv :: rest).find? (fun kv0 => kv0.1 == ch)) =
          rest.find? (fun kv0 => kv0.1 == ch) :=
        List.find?_cons_of_neg _ (by simp only [beq_iff_eq]; exact fun hh => he hh.symm)
      rw [if_neg he, hhead]

/-- Concatenation of a list of strings (the chunks of a template). -/
def str_concat (l : List String) : String :=
  ⟨(l.map String.data).flatten⟩

/-- Simultaneous substitution on one chunk: a chunk equal to a substitution key
becomes that key's value, any other chunk is returned verbatim. -/
def subst_chunk (repl : List (String × String)) (ch : String) : String :=
  ((repl.find? (fun kv => kv.1 == ch)).map Prod.snd).getD ch

/-- Personalization at the character-list level. -/
theorem personalize_data (env : Env) (lead : Lead) (t : String) :
    (personalize_template env t lead).data =
      ((replacements env lead).map (fun kv => (kv.1.data, kv.2.data))).foldl
        (fun acc kv => pyReplaceAux kv.1 kv.2 acc) t.data := by
  unfold personalize_template
  generalize replacements env lead = l
  induction l generalizing t with
  | nil => rfl
  | cons kv rest ih =>
    rw [List.foldl_cons, List.map_cons, List.foldl_cons]
    exact ih (pyReplace t kv.1 kv.2)

/-- `find?` commutes with projecting string pairs to character lists. -/
theorem find?_map_data (repl : List (String × String)) (ch : String) :
    (repl.map (fun kv => (kv.1.data, kv.2.data))).find?
        (fun kv => kv.1 == ch.data) =
      (repl.find? (fun kv => kv.1 == ch)).map (fun kv => (kv.1.data, kv.2.data)) := by
  induction repl with
  | nil => rfl
  | cons kv rest ih =>
    by_cases he : kv.1 = ch
    · rw [List.map_cons, List.find?_cons_of_pos _ (by simp [he]),
        List.find?_cons_of_pos _ (by simp [he])]
      rfl
    · have hd : kv.1.data ≠ ch.data := fun hdd => he (String.ext hdd)
      rw [List.map_cons, List.find?_cons_of_neg _ (by simp only [beq_iff_eq]; exact hd),
        List.find?_cons_of_neg _ (by simp only [beq_iff_eq]; exact he), ih]

/-- The substitution keys of `_personalize_template`, in dict order. -/
theorem replacements_keys (env : Env) (lead : Lead) :
    (replacements env lead).map Prod.fst =
      ["\x7b\x7bfirst_name\x7d\x7d", "\x7b\x7blast_name\x7d\x7d",
       "\x7b\x7bcompany\x7d\x7d", "\x7b\x7bbusiness_type\x7d\x7d",
       "\x7b\x7bcountry\x7d\x7d", "\x7b\x7bcalendly_link\x7d\x7d",
       "\x7b\x7bpayment_link\x7d\x7d"] := rfl

/-- The substitution keys as character lists (for the concrete key facts). -/
def key_data_list : List (List Char) :=
  ["\x7b\x7bfirst_name\x7d\x7d".data, "\x7b\x7blast_name\x7d\x7d".data,
   "\x7b\x7bcompany\x7d\x7d".data, "\x7b\x7bbusiness_type\x7d\x7d".data,
   "\x7b\x7bcountry\x7d\x7d".data, "\x7b\x7bcalendly_link\x7d\x7d".data,
   "\x7b\x7bpayment_link\x7d\x7d".data]

/-- A lead whose first-name value itself contains a placeholder token, so the
sequential replacement cascades (used by the C8 counterexample). -/
def cascade_lead : Lead :=
  { Lead.blank with
    first_name := some "\x7b\x7blast_name\x7d\x7d"
    last_name := some "Smith" }

/-- Claim C8 counterexample: rendering the first-name token for a lead whose
first-name value is itself the last-name token produces the last-name value,
not the lead's first-name value — the later replacement passes substitute into
the already-substituted value, so a set placeholder is not always "replaced by
the lead's value" as the claim states for every lead record. -/
theorem C8_counterexample :
    cascade_lead.first_name.getD "there" = "\x7b\x7blast_name\x7d\x7d"
  ∧ personalize_template env_ok "\x7b\x7bfirst_name\x7d\x7d" cascade_lead = "Smith"
  ∧ personalize_template env_ok "\x7b\x7bfirst_name\x7d\x7d" cascade_lead ≠
      cascade_lead.first_name.getD "there" := by
  have hmain : personalize_template env_ok "\x7b\x7bfirst_name\x7d\x7d" cascade_lead =
      "Smith" := by
    unfold personalize_template replacements
    rw [List.foldl_cons, pyReplace_self _ _ (by decide)]
    have e1 : cascade_lead.first_name.getD "there" = "\x7b\x7blast_name\x7d\x7d" := rfl
    rw [e1, List.foldl_cons, pyReplace_self _ _ (by decide)]
    have e2 : cascade_lead.last_name.getD "" = "Smith" := rfl
    rw [e2, List.foldl_cons, pyReplace_no_occ _ _ _ (by decide) (by decide),
      List.foldl_cons, pyReplace_no_occ _ _ _ (by decide) (by decide),
      List.foldl_cons, pyReplace_no_occ _ _ _ (by decide) (by decide),
      List.foldl_cons, pyReplace_no_occ _ _ _ (by decide) (by decide),
      List.foldl_cons, pyReplace_no_occ _ _ _ (by decide) (by decide),
      List.foldl_nil]
  exact ⟨rfl, hmain, by rw [hmain]; decide⟩

/-- Claim C8 (amended): template personalization is a total function — the
embedding has no failure path — but it is sequential literal replacement in
dict order, not simultaneous substitution: a lead value that itself contains a
placeholder token is re-substituted by the later passes (counterexample).
First conjunct: every template in which no substitution key occurs — in
particular any unresolved placeholder such as the `price` token — is returned
verbatim, for every lead.  Second conjunct: for leads whose substitution
values contain no placeholder-opening character, rendering acts as
simultaneous substitution on every template decomposable into chunks that are
either substitution keys or pieces in which no key occurrence can start
(covering all shipped templates, mixed templates, and unresolved tokens):
each key chunk becomes the lead's value or its documented default, every
other chunk is left verbatim. -/
theorem C8_personalize_sequential_subst :
    ∀ (env : Env) (lead : Lead),
      (∀ t : String, (∀ kv ∈ replacements env lead, ¬ kv.1.data <:+: t.data) →
          personalize_template env t lead = t)
    ∧ ((∀ kv ∈ replacements env lead, ∀ c ∈ kv.2.data, c ≠ '\x7b') →
        ∀ chunks : List String,
          (∀ ch ∈ chunks, (∃ kv ∈ replacements env lead, ch = kv.1) ∨
            (∀ kv ∈ replacements env lead, blocks kv.1.data ch.data = true)) →
          personalize_template env (str_concat chunks) lead =
            str_concat (chunks.map (subst_chunk (replacements env lead)))) := by
  intro env lead
  constructor
  · intro t h
    unfold personalize_template
    refine foldl_replace_id _ _ ?_
    intro kv hkv
    refine ⟨?_, h kv hkv⟩
    have hk1 : kv.1 ∈ (replacements env lead).map Prod.fst :=
      List.mem_map_of_mem Prod.fst hkv
    rw [replacements_keys] at hk1
    simp only [List.mem_cons, List.not_mem_nil, or_false] at hk1
    rcases hk1 with h1|h1|h1|h1|h1|h1|h1 <;> rw [h1] <;> decide
  · intro hval chunks hchunks
    apply String.ext
    rw [personalize_data]
    have hkeys : ∀ kvd ∈ (replacements env lead).map (fun kv => (kv.1.data, kv.2.data)),
        kvd.1 ∈ key_data_list := by
      intro kvd hkvd
      obtain ⟨kv, hkv, rfl⟩ := List.mem_map.mp hkvd
      have hk1 : kv.1 ∈ (replacements env lead).map Prod.fst :=
        List.mem_map_of_mem Prod.fst hkv
      rw [replacements_keys] at hk1
      simp only [List.mem_cons, List.not_mem_nil, or_false] at hk1
      show kv.1.data ∈ key_data_list
      rcases hk1 with h1|h1|h1|h1|h1|h1|h1 <;> rw [h1] <;> decide
    have hk_ne : ∀ k ∈ key_data_list, k ≠ ([] : List Char) := by decide
    have hk_blocks : ∀ k ∈ key_data_list, ∀ k' ∈ key_data_list,
        k ≠ k' → blocks k k' = true := by decide
    have hk_open : ∀ k ∈ key_data_list, k.head? = some '\x7b' := by decide
    have H1 : ∀ kvd ∈ (replacements env lead).map (fun kv => (kv.1.data, kv.2.data)),
        kvd.1 ≠ [] := fun kvd h => hk_ne _ (hkeys kvd h)
    have H3 : ∀ kvd ∈ (replacements env lead).map (fun kv => (kv.1.data, kv.2.data)),
        ∀ kvd' ∈ (replacements env lead).map (fun kv => (kv.1.data, kv.2.data)),
        kvd.1 ≠ kvd'.1 → blocks kvd.1 kvd'.1 = true :=
      fun kvd h kvd' h' hne => hk_blocks _ (hkeys kvd h) _ (hkeys kvd' h') hne
    have H4 : ∀ kvd ∈ (replacements env lead).map (fun kv => (kv.1.data, kv.2.data)),
        ∀ kvd' ∈ (replacements env lead).map (fun kv => (kv.1.data, kv.2.data)),
        blocks kvd'.1 kvd.2 = true := by
      intro kvd h kvd' h'
      obtain ⟨kv, hkv, rfl⟩ := List.mem_map.mp h
      exact blocks_of_no_open kvd'.1 kv.2.data (hk_open _ (hkeys kvd' h')) (hval kv hkv)
    have H2 : ∀ chd ∈ chunks.map String.data,
        (∃ kvd ∈ (replacements env lead).map (fun kv => (kv.1.data, kv.2.data)),
            chd = kvd.1) ∨
        ∀ kvd ∈ (replacements env lead).map (fun kv => (kv.1.data, kv.2.data)),
            blocks kvd.1 chd = true := by
      intro chd hchd
      obtain ⟨ch, hch, rfl⟩ := List.mem_map.mp hchd
      rcases hchunks ch hch with ⟨kv, hkv, heq⟩ | hall
      · exact Or.inl ⟨(kv.1.data, kv.2.data), List.mem_map_of_mem _ hkv, by rw [heq]⟩
      · refine Or.inr ?_
        intro kvd hkvd
        obtain ⟨kv', hkv', rfl⟩ := List.mem_map.mp hkvd
        exact hall kv' hkv'
    have hlhs : (str_concat chunks).data = (chunks.map String.data).flatten := rfl
    rw [hlhs, fold_passes _ _ H1 H3 H4 H2]
    have hrhs : (str_concat (chunks.map (subst_chunk (replacements env lead)))).data =
        ((chunks.map (subst_chunk (replacements env lead))).map String.data).flatten := rfl
    rw [hrhs, List.map_map, List.map_map]
    congr 1
    refine List.map_congr_left ?_
    intro ch hch
    simp only [Function.comp_apply]
    rw [find?_map_data]
    cases hf : (replacements env lead).find? (fun kv => kv.1 == ch) with
    | none => simp [subst_chunk, hf]
    | some kv0 => simp [subst_chunk, hf]

/-- A mixed template for the C8 witness: literal text, two substitution
tokens, and an unresolved `price` token. -/
def demo_chunks : List String :=
  ["Hi ", "\x7b\x7bfirst_name\x7d\x7d", ", the price is \x7b\x7bprice\x7d\x7d for ",
   "\x7b\x7bcompany\x7d\x7d", " today"]

/-- Witness for the amended C8 at `env_ok` and `lead_a`: the lone unresolved
`price` token survives verbatim, and the mixed five-chunk template renders as
simultaneous substitution. -/
theorem C8_witness :
    personalize_template env_ok "\x7b\x7bprice\x7d\x7d" lead_a = "\x7b\x7bprice\x7d\x7d"
  ∧ personalize_template env_ok (str_concat demo_chunks) lead_a =
      str_concat (demo_chunks.map (subst_chunk (replacements env_ok lead_a))) :=
  ⟨(C8_personalize_sequential_subst env_ok lead_a).1 _ (by decide),
   (C8_personalize_sequential_subst env_ok lead_a).2 (by decide) demo_chunks (by decide)⟩

end LeadAutomation











